import Mathlib

/-!
Shallow embedding of the voice-SDK session-control layer
(`src/src/api/voice-sdk.ts`, first variant): the `Dialog` per-call state
machine, its action set (`terminator`, `answerer`, `referer`), and the
`VoiceSDK` handlers `_onSession`, `onSessionAccepted`, `onSessionConfirmed`,
`onSessionEnded`, plus the public operations `makeCall` and `login`.

Sessions are identified by natural numbers; media tracks by natural numbers.
Side effects on the signaling engine, the media layer and the delegate
callbacks are recorded in an explicit effect list, so that "invoked exactly
once" and "no session operation performed" become countable facts about the
returned effect list.
-/

namespace VoiceSDK

/-- Dialog status: the literal union type of `Dialog.status`. -/
inductive DialogStatus
  | CREATED
  | CONNECTED
  | TERMINATED
  deriving DecidableEq, Repr

/-- jssip `C.causes` constants used by this code. -/
inductive Cause
  | REJECTED
  | CANCELED
  | BYE
  | BUSY
  deriving DecidableEq, Repr

/-- One `Dialog` instance: id, direction flag, status, the borrowed session
(by id), the tracks currently added to `remoteMedia`, whether the
`once('ended'/'failed')` close handlers from `remoteStream` are registered,
and whether `_onSession` registered the session event handlers
(`accepted`/`confirmed`/`failed`/`ended`/`progress`). -/
structure Dialog where
  id : String
  sessionId : Nat
  sipInbound : Bool
  status : DialogStatus
  remoteTracks : List Nat
  closeHandlersOn : Bool
  sessionHandlersOn : Bool
  deriving DecidableEq, Repr

/-- `Dialog.isTerminated`: `'TERMINATED' === this.status?.toUpperCase()`;
the status literals are already upper-case, so this is equality with
`TERMINATED`. -/
def Dialog.isTerminated (d : Dialog) : Bool :=
  d.status = DialogStatus.TERMINATED

/-- Observable side effects: session operations sent to the signaling
engine, media-track operations, delegate invocations, originations and
console warnings. -/
inductive Effect
  | sessTerminate (sid : Nat) (cause : Option Cause) (code : Option Nat)
      (reason : Option String)
  | sessAnswer (sid : Nat)
  | sessRefer (sid : Nat) (target : String)
  | originate (dest : String) (callId : String)
  | callCreated (id : String) (inbound : Bool) (caller callee : String)
  | callConnected
  | callTerminated
  | trackStop (tid : Nat)
  | trackRemove (tid : Nat)
  | warn (msg : String)
  deriving DecidableEq, Repr

/-- `Dialog.actions.terminator` (voice-sdk.ts lines 43-53): in `CREATED`,
terminate with REJECTED/486 when `sipInbound`, else CANCELED/487; in
`CONNECTED`, terminate with BYE/200 and the optional reason phrase; in
`TERMINATED`, fall through (no session operation). -/
def terminator (d : Dialog) (cause : Option String) : List Effect :=
  if d.status = DialogStatus.CREATED then
    if d.sipInbound then
      [Effect.sessTerminate d.sessionId (some Cause.REJECTED) (some 486) none]
    else
      [Effect.sessTerminate d.sessionId (some Cause.CANCELED) (some 487) none]
  else if d.status = DialogStatus.CONNECTED then
    [Effect.sessTerminate d.sessionId (some Cause.BYE) (some 200) cause]
  else
    []

/-- `Dialog.actions.answerer` (voice-sdk.ts lines 54-66):
`return this.sipInbound ? this.session.answer(callOpts) : undefined;` —
the only guard is the direction flag; there is no status check. -/
def answerer (d : Dialog) : List Effect :=
  if d.sipInbound then [Effect.sessAnswer d.sessionId] else []

/-- `Dialog.actions.referer` (voice-sdk.ts lines 68-79): no-op unless the
status is `CONNECTED`, otherwise issues `session.refer(target, ...)`. -/
def referer (d : Dialog) (target : String) : List Effect :=
  if d.status = DialogStatus.CONNECTED then
    [Effect.sessRefer d.sessionId target]
  else
    []

/-- `Dialog._closeRemoteStream` (voice-sdk.ts lines 100-105): stop and
remove every track of `remoteMedia`. -/
def closeRemoteStream (d : Dialog) : Dialog × List Effect :=
  ({ d with remoteTracks := [] },
   d.remoteTracks.flatMap (fun t => [Effect.trackStop t, Effect.trackRemove t]))

/-- The handler the code actually registers with
`this.session.once('ended', () => this._closeRemoteStream.bind(this))`
(voice-sdk.ts lines 94-95): the arrow function evaluates
`this._closeRemoteStream.bind(this)` — producing a bound function that is
immediately discarded — and never calls it, so running the handler
performs no track operation. -/
def remoteStreamOnceHandler (d : Dialog) : Dialog × List Effect :=
  (d, [])

/-- `Dialog.remoteStream` (voice-sdk.ts lines 87-98): memoized — if
`remoteMedia` already has tracks return it; otherwise add every receiver
track of the session connection, then register the `once('ended')` and
`once('failed')` close handlers. `receivers` is the track list of
`session.connection.getReceivers()` at call time. -/
def remoteStream (d : Dialog) (receivers : List Nat) : Dialog :=
  if d.remoteTracks.length ≠ 0 then d
  else { d with remoteTracks := receivers, closeHandlersOn := true }

/-- The mutable state of one `VoiceSDK` instance relevant to the call
state machine: the single `_dialog` slot, and the transport/registration
flags backing `isConnected` / `isRegistered` (`!!this._ua?.isConnected()`,
`!!this._ua?.isRegistered()`; both are false when `_ua` is absent). -/
structure SDKState where
  dialog : Option Dialog
  uaPresent : Bool
  uaConnected : Bool
  uaRegistered : Bool
  deriving DecidableEq, Repr

/-- `this._dialog && !this._dialog.isTerminated()`: a non-terminated
Dialog occupies the slot. -/
def SDKState.dialogActive (st : SDKState) : Bool :=
  match st.dialog with
  | none => false
  | some d => !d.isTerminated

/-- Number of non-terminated Dialogs held by the SDK (the `_dialog` slot
is the only place a Dialog lives). -/
def SDKState.nonTerminatedCount (st : SDKState) : Nat :=
  if st.dialogActive then 1 else 0

/-- A `newRTCSession` event as seen by `_onSession`: the session, the
originator (`'remote'` ⇔ `fromRemote`), and the request headers / URIs the
handler reads. -/
structure SessionEvent where
  sessionId : Nat
  fromRemote : Bool
  dirHeader : Option String
  callIdHeader : Option String
  caller : Option String
  callee : Option String
  deriving DecidableEq, Repr

/-- `VoiceSDK._onSession` (voice-sdk.ts lines 399-450). `freshId` stands
for `Utils.newUUID()`; `createdThrows` models a `callCreated` delegate that
throws synchronously when invoked. Returns the new state, the emitted
effects, and whether an exception escaped the handler. Control flow:
if the originator is remote and a non-terminated Dialog exists, warn and
terminate `this._dialog?.session` with 486/BUSY/CALL_IN_PROGRESS and
return; otherwise, when the slot is empty or terminated, build a new
Dialog, assign its id, invoke `callCreated` directly (an exception here
escapes before the `session.on` registrations), then register the session
event handlers. -/
def onSession (st : SDKState) (ev : SessionEvent) (freshId : String)
    (createdThrows : Bool) : SDKState × List Effect × Bool :=
  let sipInbound := ev.fromRemote
  let inbound := sipInbound && ev.dirHeader ≠ some "outbound"
  let callId := ev.callIdHeader.getD freshId
  let caller := ev.caller.getD "Unknown"
  let callee := ev.callee.getD "Unknown"
  match st.dialog with
  | some d =>
      if sipInbound && !d.isTerminated then
        (st,
         [Effect.warn ("UA[_onSession]: Call already in progress: " ++ d.id),
          Effect.sessTerminate d.sessionId (some Cause.BUSY) (some 486)
            (some "CALL_IN_PROGRESS")],
         false)
      else if d.isTerminated then
        let nd : Dialog :=
          { id := callId, sessionId := ev.sessionId, sipInbound := sipInbound,
            status := DialogStatus.CREATED, remoteTracks := [],
            closeHandlersOn := false, sessionHandlersOn := !createdThrows }
        ({ st with dialog := some nd },
         [Effect.callCreated callId inbound caller callee], createdThrows)
      else
        (st, [], false)
  | none =>
      let nd : Dialog :=
        { id := callId, sessionId := ev.sessionId, sipInbound := sipInbound,
          status := DialogStatus.CREATED, remoteTracks := [],
          closeHandlersOn := false, sessionHandlersOn := !createdThrows }
      ({ st with dialog := some nd },
       [Effect.callCreated callId inbound caller callee], createdThrows)

/-- `VoiceSDK.onSessionAccepted` (voice-sdk.ts lines 453-464): when a
Dialog exists in `CREATED`, set it `CONNECTED`, schedule `callConnected`,
and call `remoteStream()` (attaching the session connection receiver
tracks) to feed the audio element; otherwise do nothing. -/
def onSessionAccepted (st : SDKState) (receivers : List Nat) :
    SDKState × List Effect :=
  match st.dialog with
  | none => (st, [])
  | some d =>
      if d.status = DialogStatus.CREATED then
        let d1 := remoteStream { d with status := DialogStatus.CONNECTED } receivers
        ({ st with dialog := some d1 }, [Effect.callConnected])
      else
        (st, [])

/-- `VoiceSDK.onSessionConfirmed` (voice-sdk.ts lines 474-481): when a
Dialog exists in `CREATED`, set it `CONNECTED` and schedule
`callConnected`; otherwise do nothing. -/
def onSessionConfirmed (st : SDKState) : SDKState × List Effect :=
  match st.dialog with
  | none => (st, [])
  | some d =>
      if d.status = DialogStatus.CREATED then
        ({ st with dialog := some { d with status := DialogStatus.CONNECTED } },
         [Effect.callConnected])
      else
        (st, [])

/-- `VoiceSDK.onSessionEnded` (voice-sdk.ts lines 484-494), registered for
both the `failed` and the `ended` session event: return if no Dialog or
already terminated; otherwise set `TERMINATED`, invoke `callTerminated`,
then `delete this._dialog` (skipped, with the error logged, when the
delegate rejects — `termThrows`). The session's `once` close handlers
registered by `remoteStream` also fire on the same event; their body
(`() => this._closeRemoteStream.bind(this)`) performs no track
operation (`remoteStreamOnceHandler`). -/
def onSessionEnded (st : SDKState) (termThrows : Bool) :
    SDKState × List Effect :=
  match st.dialog with
  | none => (st, [])
  | some d =>
      if d.isTerminated then (st, [])
      else
        let d1 := { d with status := DialogStatus.TERMINATED }
        let onceEffects := if d.closeHandlersOn then (remoteStreamOnceHandler d1).2 else []
        if termThrows then
          ({ st with dialog := some d1 }, Effect.callTerminated :: onceEffects)
        else
          ({ st with dialog := none }, Effect.callTerminated :: onceEffects)

/-- The uniform result shape `{success, data?, error?}` (`SdkResult`),
with `data` specialized to the `{id, actions}` payload's id. -/
structure SdkResult where
  success : Bool
  dataId : Option String
  error : Option String
  deriving DecidableEq, Repr

/-- `VoiceSDK.makeCall` (voice-sdk.ts lines 226-295). `freshId` stands for
`Utils.newUUID()`. Check order from the code: empty destination, then
non-terminated Dialog in the slot, then `!this._ua || !isConnected ||
!isRegistered`; on the happy path a one-shot `newRTCSession` listener is
installed, `ua.call` originates the session, and the result carries the
pre-generated global call id. -/
def makeCall (st : SDKState) (dest : String) (freshId : String) :
    SDKState × SdkResult × List Effect :=
  if dest.length = 0 then
    (st, { success := false, dataId := none, error := some "Invalid destination" }, [])
  else if st.dialogActive then
    (st, { success := false, dataId := none, error := some "Call already in progress" }, [])
  else if !st.uaPresent || !st.uaConnected || !st.uaRegistered then
    (st, { success := false, dataId := none, error := some "SDK not ready for make call" }, [])
  else
    (st, { success := true, dataId := some freshId, error := none },
     [Effect.originate dest freshId])

/-- Outcome of the `await this._connect(user)` step inside `login`:
`_connect` resolves `true` once the UA reports connected, may resolve
`false`, and rejects when `_setup`'s promise rejects — in particular when
the connection timeout fires (`reject(new Error('Connection timeout'))`,
voice-sdk.ts lines 370-374) — or when configuration/setup checks throw. -/
inductive ConnectOutcome
  | resolvedTrue
  | resolvedFalse
  | threw (msg : String)
  deriving DecidableEq, Repr

/-- Which of the three racing resolutions of the registration promise in
`login` fires first: the `registered` event, the `registrationFailed`
event (with the engine cause), or the 10000 ms timeout. -/
inductive RegOutcome
  | registered
  | regFailed (cause : String)
  | regTimeout
  deriving DecidableEq, Repr

/-- `VoiceSDK.login` (voice-sdk.ts lines 185-213): awaits `_connect` — a
rejection there propagates out of `login` uncaught; a `false` resolution
returns a failure result; on `true`, the registration race resolves the
returned promise with success, a `Registration failed: cause` result, or
a `Registration timeout after 10000ms` result. -/
def login (c : ConnectOutcome) (r : RegOutcome) : Except String SdkResult :=
  match c with
  | ConnectOutcome.threw msg => Except.error msg
  | ConnectOutcome.resolvedFalse =>
      Except.ok { success := false, dataId := none,
                  error := some "Failed to connect to gateway(s)" }
  | ConnectOutcome.resolvedTrue =>
      match r with
      | RegOutcome.registered =>
          Except.ok { success := true, dataId := none, error := none }
      | RegOutcome.regFailed cause =>
          Except.ok { success := false, dataId := none,
                      error := some ("Registration failed: " ++ cause) }
      | RegOutcome.regTimeout =>
          Except.ok { success := false, dataId := none,
                      error := some "Registration timeout after 10000ms" }

/-- Signaling session sub-events delivered to the handlers registered by
`_onSession`. An `accepted` event carries the receiver track list of the
session connection at that moment. -/
inductive SigEvent
  | accepted (receivers : List Nat)
  | confirmed
  | failed
  | ended
  | progress
  deriving DecidableEq, Repr

/-- Dispatch one session sub-event to its handler (`failed` and `ended`
are both wired to `onSessionEnded`; `progress` only checks the slot). -/
def dispatch (st : SDKState) (e : SigEvent) : SDKState × List Effect :=
  match e with
  | SigEvent.accepted receivers => onSessionAccepted st receivers
  | SigEvent.confirmed => onSessionConfirmed st
  | SigEvent.failed => onSessionEnded st false
  | SigEvent.ended => onSessionEnded st false
  | SigEvent.progress => (st, [])

/-- Run a sequence of session sub-events, accumulating all effects. -/
def run (st : SDKState) : List SigEvent → SDKState × List Effect
  | [] => (st, [])
  | e :: es =>
      let r1 := dispatch st e
      let r2 := run r1.1 es
      (r2.1, r1.2 ++ r2.2)

/-- Count the `callConnected` delegate invocations in an effect list. -/
def countConnected (fx : List Effect) : Nat :=
  fx.countP (fun f => f = Effect.callConnected)

/-- Count the `callTerminated` delegate invocations in an effect list. -/
def countTerminated (fx : List Effect) : Nat :=
  fx.countP (fun f => f = Effect.callTerminated)

/-- Count the track-stop operations in an effect list. -/
def countTrackStops (fx : List Effect) : Nat :=
  fx.countP (fun f => match f with | Effect.trackStop _ => true | _ => false)

/-- One event of the whole system: a public `makeCall`, a
`newRTCSession` (session-created) event, or a session sub-event. -/
inductive ApiEvent
  | mkCall (dest : String) (freshId : String)
  | sessCreated (ev : SessionEvent) (freshId : String)
  | sig (e : SigEvent)
  deriving DecidableEq, Repr

/-- State transition of one `ApiEvent` (delegates well-behaved). -/
def stepE (st : SDKState) : ApiEvent → SDKState
  | ApiEvent.mkCall dest freshId => (makeCall st dest freshId).1
  | ApiEvent.sessCreated ev freshId => (onSession st ev freshId false).1
  | ApiEvent.sig e => (dispatch st e).1

/-- Run a sequence of `ApiEvent`s from a state. -/
def runE (st : SDKState) : List ApiEvent → SDKState
  | [] => st
  | e :: es => runE (stepE st e) es

/-- `remoteStream` never changes the status of a Dialog. -/
theorem remoteStream_status (d : Dialog) (receivers : List Nat) :
    (remoteStream d receivers).status = d.status := by
  unfold remoteStream
  split <;> rfl

/-- A connected inbound Dialog used as concrete input. -/
def dConn : Dialog :=
  { id := "d1", sessionId := 7, sipInbound := true,
    status := DialogStatus.CONNECTED, remoteTracks := [],
    closeHandlersOn := false, sessionHandlersOn := true }

/-- A freshly created inbound Dialog used as concrete input. -/
def dNew : Dialog :=
  { id := "d0", sessionId := 3, sipInbound := true,
    status := DialogStatus.CREATED, remoteTracks := [],
    closeHandlersOn := false, sessionHandlersOn := true }

/-- A registered SDK whose slot holds the connected Dialog `dConn`. -/
def stBusy : SDKState :=
  { dialog := some dConn, uaPresent := true, uaConnected := true,
    uaRegistered := true }

/-- A registered SDK with an empty Dialog slot. -/
def stIdle : SDKState :=
  { dialog := none, uaPresent := true, uaConnected := true,
    uaRegistered := true }

/-- A registered SDK whose slot holds the created Dialog `dNew`. -/
def stCreated : SDKState :=
  { dialog := some dNew, uaPresent := true, uaConnected := true,
    uaRegistered := true }

/-- An inbound `newRTCSession` event for session 9. -/
def evIn : SessionEvent :=
  { sessionId := 9, fromRemote := true, dirHeader := none,
    callIdHeader := some "cid9", caller := some "alice",
    callee := some "bob" }

/-- C6: `terminate(reason)` sends REJECTED/486 for an inbound Dialog in
`CREATED`, CANCELED/487 for an outbound Dialog in `CREATED`, BYE/200 with
the optional reason text in `CONNECTED`, and performs no session operation
in `TERMINATED`. -/
theorem terminator_by_status_and_direction (d : Dialog) (reason : Option String) :
    terminator d reason =
      match d.status, d.sipInbound with
      | DialogStatus.CREATED, true =>
          [Effect.sessTerminate d.sessionId (some Cause.REJECTED) (some 486) none]
      | DialogStatus.CREATED, false =>
          [Effect.sessTerminate d.sessionId (some Cause.CANCELED) (some 487) none]
      | DialogStatus.CONNECTED, _ =>
          [Effect.sessTerminate d.sessionId (some Cause.BYE) (some 200) reason]
      | DialogStatus.TERMINATED, _ => [] := by
  unfold terminator
  rcases d with ⟨id, sid, inb, status, tr, ch, sh⟩
  cases status <;> cases inb <;> simp

/-- C5 counterexample: for the concrete inbound Dialog `dConn` whose
status is `CONNECTED`, `answer()` still performs the session answer
operation, contradicting the claim that `answer()` is a no-op whenever
the status is not `CREATED`. -/
theorem answerer_connected_inbound_answers :
    dConn.sipInbound = true ∧ dConn.status = DialogStatus.CONNECTED ∧
      answerer dConn = [Effect.sessAnswer 7] := by
  refine ⟨rfl, rfl, rfl⟩

/-- C5 amended: `answer()` calls the session's answer operation exactly
when the Dialog's direction is INBOUND, independently of the status; for
an outbound Dialog it performs no session operation. -/
theorem answerer_direction_only (d : Dialog) (s : DialogStatus) :
    (answerer d ≠ [] ↔ d.sipInbound = true) ∧
      answerer { d with status := s } = answerer d ∧
      (d.sipInbound = true → answerer d = [Effect.sessAnswer d.sessionId]) ∧
      (d.sipInbound = false → answerer d = []) := by
  unfold answerer
  rcases d with ⟨id, sid, inb, status, tr, ch, sh⟩
  cases inb <;> simp

/-- C5 amended, witnessed at the concrete inbound Dialog `dNew`. -/
theorem answerer_direction_only_w :
    answerer dNew = [Effect.sessAnswer 3] :=
  (answerer_direction_only dNew DialogStatus.CREATED).2.2.1 rfl

/-- C10: `makeCall` with an empty destination returns the
`Invalid destination` failure result before the call-in-progress and
readiness checks — for every SDK state, with no effect and no state
change. -/
theorem makeCall_empty_destination (st : SDKState) (freshId : String) :
    makeCall st "" freshId =
      (st, { success := false, dataId := none,
             error := some "Invalid destination" }, []) := by
  unfold makeCall
  simp

/-- C7: for a non-empty destination, `makeCall` fails with
`Call already in progress` whenever a non-terminated Dialog occupies the
slot, and otherwise fails with the not-ready error whenever the UA is
absent, unconnected, or unregistered; in both cases the state is unchanged
and no session is originated. -/
theorem makeCall_failure_paths (st : SDKState) (dest freshId : String)
    (hne : dest.length ≠ 0) :
    (st.dialogActive = true →
       makeCall st dest freshId =
         (st, { success := false, dataId := none,
                error := some "Call already in progress" }, [])) ∧
      (st.dialogActive = false →
        (!st.uaPresent || !st.uaConnected || !st.uaRegistered) = true →
        makeCall st dest freshId =
          (st, { success := false, dataId := none,
                 error := some "SDK not ready for make call" }, [])) := by
  unfold makeCall
  constructor
  · intro h
    simp [hne, h]
  · intro h hr
    simp [hne, h, hr]

/-- C7 witnessed: `makeCall "1001"` against the busy state `stBusy`
returns the call-in-progress failure with no effect. -/
theorem makeCall_failure_paths_w :
    makeCall stBusy "1001" "u1" =
      (stBusy, { success := false, dataId := none,
                 error := some "Call already in progress" }, []) :=
  (makeCall_failure_paths stBusy "1001" "u1" (by decide)).1 rfl

/-- The Dialog slot holds at most one Dialog, so at most one
non-terminated Dialog exists in any state. -/
theorem nonTerminatedCount_le_one (st : SDKState) :
    st.nonTerminatedCount ≤ 1 := by
  unfold SDKState.nonTerminatedCount
  split <;> simp

/-- C1: while a non-terminated Dialog exists, the session-created handler
leaves the state untouched; a state whose Dialog slot changed must have
held no Dialog or a terminated one; `makeCall` refuses (no success, no
state change, no origination) while a non-terminated Dialog exists; and
every run of public calls and signaling events keeps at most one
non-terminated Dialog. -/
theorem single_active_dialog_invariant (st : SDKState) (ev : SessionEvent)
    (dest freshId fid : String) (es : List ApiEvent) (init : SDKState) :
    (st.dialogActive = true → (onSession st ev fid false).1 = st) ∧
      ((onSession st ev fid false).1.dialog ≠ st.dialog →
        st.dialog = none ∨ ∃ d, st.dialog = some d ∧ d.isTerminated = true) ∧
      (st.dialogActive = true →
        (makeCall st dest freshId).2.1.success = false ∧
        (makeCall st dest freshId).1 = st ∧
        (makeCall st dest freshId).2.2 = []) ∧
      (runE init es).nonTerminatedCount ≤ 1 := by
  refine ⟨?_, ?_, ?_, nonTerminatedCount_le_one _⟩
  · intro h
    unfold SDKState.dialogActive at h
    cases hd : st.dialog with
    | none => rw [hd] at h; simp at h
    | some d =>
        rw [hd] at h
        have ht : d.isTerminated = false := by
          simpa using h
        cases hfr : ev.fromRemote <;> simp [onSession, hd, ht, hfr]
  · intro hne
    cases hd : st.dialog with
    | none => exact Or.inl rfl
    | some d =>
        by_cases ht : d.isTerminated = true
        · exact Or.inr ⟨d, rfl, ht⟩
        · exfalso
          apply hne
          have ht2 : d.isTerminated = false := by
            simpa using ht
          cases hfr : ev.fromRemote <;> simp [onSession, hd, ht2, hfr]
  · intro h
    unfold makeCall
    by_cases hl : dest.length = 0
    · simp [hl]
    · simp [hl, h]

/-- C1 witnessed: a session-created event arriving while the connected
Dialog `dConn` occupies the slot leaves the state unchanged. -/
theorem single_active_dialog_invariant_w :
    (onSession stBusy evIn "u2" false).1 = stBusy :=
  (single_active_dialog_invariant stBusy evIn "1001" "u2" "u2" [] stIdle).1 rfl

/-- C4: for a Dialog in `CREATED`, delivering `accepted` then `confirmed`
(or vice versa) transitions it to `CONNECTED` on the first event, makes
the second event a strict no-op, and invokes `callConnected` exactly once
across the sequence. -/
theorem connected_transition_idempotent (st : SDKState) (d : Dialog)
    (receivers : List Nat) (hd : st.dialog = some d)
    (hc : d.status = DialogStatus.CREATED) :
    countConnected (run st [SigEvent.accepted receivers, SigEvent.confirmed]).2 = 1 ∧
      countConnected (run st [SigEvent.confirmed, SigEvent.accepted receivers]).2 = 1 ∧
      (∃ d1, (onSessionAccepted st receivers).1.dialog = some d1 ∧
        d1.status = DialogStatus.CONNECTED) ∧
      onSessionConfirmed (onSessionAccepted st receivers).1 =
        ((onSessionAccepted st receivers).1, []) ∧
      (∃ d2, (onSessionConfirmed st).1.dialog = some d2 ∧
        d2.status = DialogStatus.CONNECTED) ∧
      onSessionAccepted (onSessionConfirmed st).1 receivers =
        ((onSessionConfirmed st).1, []) := by
  have hA : onSessionAccepted st receivers =
      ({ st with dialog := some (remoteStream
          { d with status := DialogStatus.CONNECTED } receivers) },
       [Effect.callConnected]) := by
    simp [onSessionAccepted, hd, hc]
  have hAs : (remoteStream { d with status := DialogStatus.CONNECTED }
      receivers).status = DialogStatus.CONNECTED :=
    remoteStream_status _ _
  have hC : onSessionConfirmed st =
      ({ st with dialog := some { d with status := DialogStatus.CONNECTED } },
       [Effect.callConnected]) := by
    simp [onSessionConfirmed, hd, hc]
  have hCA : onSessionConfirmed (onSessionAccepted st receivers).1 =
      ((onSessionAccepted st receivers).1, []) := by
    rw [hA]
    simp [onSessionConfirmed, hAs]
  have hAC : onSessionAccepted (onSessionConfirmed st).1 receivers =
      ((onSessionConfirmed st).1, []) := by
    rw [hC]
    simp [onSessionAccepted]
  have h3 : ∃ d1, (onSessionAccepted st receivers).1.dialog = some d1 ∧
      d1.status = DialogStatus.CONNECTED := by
    rw [hA]
    exact ⟨_, rfl, hAs⟩
  have h5 : ∃ d2, (onSessionConfirmed st).1.dialog = some d2 ∧
      d2.status = DialogStatus.CONNECTED := by
    rw [hC]
    exact ⟨_, rfl, rfl⟩
  have e1 : (run st [SigEvent.accepted receivers, SigEvent.confirmed]).2 =
      (onSessionAccepted st receivers).2 ++
        ((onSessionConfirmed (onSessionAccepted st receivers).1).2 ++ []) := rfl
  have h1 : countConnected
      (run st [SigEvent.accepted receivers, SigEvent.confirmed]).2 = 1 := by
    rw [e1, hCA, hA]
    simp [countConnected]
  have e2 : (run st [SigEvent.confirmed, SigEvent.accepted receivers]).2 =
      (onSessionConfirmed st).2 ++
        ((onSessionAccepted (onSessionConfirmed st).1 receivers).2 ++ []) := rfl
  have h2 : countConnected
      (run st [SigEvent.confirmed, SigEvent.accepted receivers]).2 = 1 := by
    rw [e2, hAC, hC]
    simp [countConnected]
  exact ⟨h1, h2, h3, hCA, h5, hAC⟩

/-- C4 witnessed at the created Dialog `dNew`: the accepted/confirmed
sequence yields exactly one `callConnected`. -/
theorem connected_transition_idempotent_w :
    countConnected (run stCreated
      [SigEvent.accepted [5], SigEvent.confirmed]).2 = 1 :=
  (connected_transition_idempotent stCreated dNew [5] rfl rfl).1

/-- C3 at a concrete input: starting from the created Dialog `dNew`,
`accepted` attaches remote track 5, then `failed` followed by `ended`
invokes `callTerminated` exactly once — but stops zero tracks, because
the registered close handler (`() => this._closeRemoteStream.bind(this)`)
never calls `_closeRemoteStream`, whose own effect on the terminated
Dialog would have been to stop and remove track 5 exactly once. -/
theorem terminal_sequence_no_media_release :
    countTerminated (run stCreated
        [SigEvent.accepted [5], SigEvent.failed, SigEvent.ended]).2 = 1 ∧
      (onSessionAccepted stCreated [5]).1.dialog.map Dialog.remoteTracks =
        some [5] ∧
      countTrackStops (run stCreated
        [SigEvent.accepted [5], SigEvent.failed, SigEvent.ended]).2 = 0 ∧
      (remoteStreamOnceHandler { dNew with
        status := DialogStatus.TERMINATED,
        remoteTracks := [5],
        closeHandlersOn := true }).2 = [] ∧
      (closeRemoteStream { dNew with
        status := DialogStatus.TERMINATED,
        remoteTracks := [5],
        closeHandlersOn := true }).2 =
        [Effect.trackStop 5, Effect.trackRemove 5] := by
  refine ⟨rfl, rfl, rfl, rfl, rfl⟩

/-- C2 at a concrete input: with the connected Dialog `dConn` (session 7)
in the slot, an inbound session-created event for session 9 leaves the
state unchanged and creates no second Dialog, but the 486/BUSY terminate
is sent to session 7 — the existing Dialog's own session — and not to the
newly arrived session 9. -/
theorem inbound_collision_terminates_existing_session :
    (onSession stBusy evIn "u3" false).1 = stBusy ∧
      (onSession stBusy evIn "u3" false).2.1 =
        [Effect.warn "UA[_onSession]: Call already in progress: d1",
         Effect.sessTerminate 7 (some Cause.BUSY) (some 486)
           (some "CALL_IN_PROGRESS")] ∧
      evIn.sessionId = 9 ∧ dConn.sessionId = 7 := by
  refine ⟨rfl, rfl, rfl, rfl⟩

/-- C8 at a concrete input: a `callCreated` delegate that throws makes the
exception escape `_onSession` (the code calls the delegate directly), and
the session event handlers are left unregistered on the new Dialog —
unlike the run with a well-behaved delegate, which registers them. -/
theorem callCreated_throw_skips_handler_registration :
    (onSession stIdle evIn "u4" true).2.2 = true ∧
      (onSession stIdle evIn "u4" true).1.dialog.map
        Dialog.sessionHandlersOn = some false ∧
      (onSession stIdle evIn "u4" false).2.2 = false ∧
      (onSession stIdle evIn "u4" false).1.dialog.map
        Dialog.sessionHandlersOn = some true := by
  refine ⟨rfl, rfl, rfl, rfl⟩

/-- C9 counterexample: when the internal connect attempt rejects with the
connection timeout, `login` propagates the rejection instead of resolving
to a `{success:false, error}` result. -/
theorem login_rejects_on_connect_throw :
    login (ConnectOutcome.threw "Connection timeout") RegOutcome.registered =
      Except.error "Connection timeout" := rfl

/-- C9 amended: `makeCall` and the registration phase of `login` return
the uniform `{success, data?, error?}` result shape with `error` set on
failure, and `login` returns a failure result when connect resolves
unconnected — but when the connect attempt itself rejects (for example on
its connection-timeout path), `login` propagates that rejection. -/
theorem result_shape_amended (r : RegOutcome) (st : SDKState)
    (dest freshId msg : String) :
    (∃ res, login ConnectOutcome.resolvedTrue r = Except.ok res ∧
       (res.success = false → res.error.isSome = true)) ∧
      (∃ res, login ConnectOutcome.resolvedFalse r = Except.ok res ∧
        res.success = false ∧ res.error.isSome = true) ∧
      ((makeCall st dest freshId).2.1.success = false →
        (makeCall st dest freshId).2.1.error.isSome = true) ∧
      login (ConnectOutcome.threw msg) r = Except.error msg := by
  refine ⟨?_, ⟨_, rfl, rfl, rfl⟩, ?_, rfl⟩
  · cases r <;> exact ⟨_, rfl, by simp⟩
  · unfold makeCall
    by_cases h1 : dest.length = 0
    · simp [h1]
    · by_cases h2 : st.dialogActive <;>
        by_cases h3 : (!st.uaPresent || !st.uaConnected || !st.uaRegistered) = true <;>
        simp [h1, h2, h3]

/-- C9 amended, witnessed: the failing `makeCall` against the busy state
carries an error message in its result. -/
theorem result_shape_amended_w :
    (makeCall stBusy "1001" "u5").2.1.error.isSome = true :=
  (result_shape_amended RegOutcome.regTimeout stBusy "1001" "u5" "x").2.2.1 rfl

end VoiceSDK
